import Mathlib

/-!
Shallow embedding of `api/chat.js` from the CyberpetsAiAgent repository.

The handler is a gated streaming proxy: it verifies a signed claim of wallet
ownership, checks an on-chain NFT entitlement (ownerOf / balanceOf), and only
then opens a streaming request to the upstream chat provider, relaying chunks
verbatim to the caller.

External effects (ethers signature recovery, the JSON-RPC contract calls, the
upstream fetch, and writes to the caller connection) are modelled as explicit
oracles passed to the handler.  The handler returns the caller-visible
response together with a trace of the external calls it performed, so that
"no network call occurs" style properties are statable.
-/

/-- Decidable equality of oracle call results. -/
instance exceptDecEq {e a : Type} [DecidableEq e] [DecidableEq a] :
    DecidableEq (Except e a) := fun x y =>
  match x, y with
  | .error e1, .error e2 =>
    if h : e1 = e2 then .isTrue (by rw [h]) else .isFalse (by intro hc; cases hc; exact h rfl)
  | .ok a1, .ok a2 =>
    if h : a1 = a2 then .isTrue (by rw [h]) else .isFalse (by intro hc; cases hc; exact h rfl)
  | .error _, .ok _ => .isFalse (by intro hc; cases hc)
  | .ok _, .error _ => .isFalse (by intro hc; cases hc)

/-- JS `String.prototype.toLowerCase`, modelled characterwise. -/
def jsLower (s : String) : String := ⟨s.data.map Char.toLower⟩

/-- JS truthiness of an optional string field: absent (`undefined`/`null`)
and the empty string are falsy; any other string is truthy. -/
def truthy : Option String → Bool
  | none => false
  | some s => if s = "" then false else true

/-- The client-supplied `context` object `{ nft_contract, nft_token_id }`.
Either field may be absent.  Note the code reads `nft_token_id` with `??`,
which keeps a literal `0`. -/
structure Ctx where
  nft_contract : Option String := none
  nft_token_id : Option Nat := none
deriving DecidableEq

/-- The parsed POST body `{ address, signature, input, context }`.  Each of
the three string fields may be absent or empty (both falsy in JS). -/
structure Body where
  address : Option String := none
  signature : Option String := none
  input : Option String := none
  context : Option Ctx := none
deriving DecidableEq

/-- An incoming HTTP request: the method and the (possibly absent) parsed
body, as seen through `req.body || {}`. -/
structure Request where
  method : String
  body : Option Body := none
deriving DecidableEq

/-- The process environment the handler reads: `OPENAI_API_KEY` and
`RPC_URL` (each possibly unset or empty, both falsy). -/
structure Env where
  openai_api_key : Option String := none
  rpc_url : Option String := none
deriving DecidableEq

/-- The upstream chat provider's response to the streaming fetch: HTTP
success flag and status, the error text body (as read by `oaResp.text()`),
and, when a body is present, the full list of chunks the stream delivers
before terminating normally (`chunks = none` models `!oaResp.body`). -/
structure Upstream where
  ok : Bool
  status : Nat
  textBody : String
  chunks : Option (List String)
deriving DecidableEq

/-- The external world as seen by one request:
* `verifyMessage message signature` — ethers signature recovery; returns the
  recovered address or throws (`.error`) on a structurally invalid signature;
* `contractInit rpcUrl contractAddr` — construction of the JsonRpcProvider
  and Contract objects, which can throw (caught by the outer catch);
* `ownerOf tokenId` — the ERC-721 single-token-owner call; may revert/throw;
* `balanceOf address` — the balance call, returning the full-precision
  BigNumber value as a natural number, or throwing;
* `upstream input` — the streaming fetch to the chat provider; `.error`
  models the fetch itself throwing. -/
structure Chain where
  verifyMessage : String → String → Except Unit String
  contractInit : String → String → Except Unit Unit
  ownerOf : Nat → Except Unit String
  balanceOf : String → Except Unit Nat
  upstream : String → Except Unit Upstream

/-- The caller-visible outcome of one request. -/
inductive Resp where
  /-- 200 reply to a CORS pre-flight OPTIONS request. -/
  | optionsOk
  /-- 405 Method not allowed. -/
  | methodNotAllowed
  /-- 400 Missing required fields: address, signature, input. -/
  | missingFields
  /-- 500 Server misconfigured (missing OPENAI_API_KEY). -/
  | missingKey
  /-- 500 Server misconfigured (missing RPC_URL) — dead branch, RPC_URL is defaulted. -/
  | missingRpc
  /-- 400 Invalid signature (recovery threw). -/
  | invalidSignature
  /-- 401 Signature does not match address. -/
  | unauthorized
  /-- 400 Missing nft_contract in context. -/
  | missingContract
  /-- 403 NFT ownership check failed - access denied. -/
  | forbidden
  /-- 500 Failed to verify ownership (outer catch around the on-chain section). -/
  | ownershipError
  /-- 500 OpenAI request failed, carrying the upstream status and text body. -/
  | upstreamError (status : Nat) (body : String)
  /-- 500 Internal server error (the streaming fetch threw before headers were sent). -/
  | internalError
  /-- Event-stream response that ended cleanly (`res.end()` reached); carries
  everything successfully written to the caller. -/
  | streamed (sent : List String)
  /-- Event-stream response whose final direct `res.write` threw; the caller
  got `sent` and the connection was never cleanly ended. -/
  | streamedAborted (sent : List String)
deriving DecidableEq

/-- The HTTP status code each outcome is delivered with. -/
def Resp.statusCode : Resp → Nat
  | .optionsOk => 200
  | .methodNotAllowed => 405
  | .missingFields => 400
  | .missingKey => 500
  | .missingRpc => 500
  | .invalidSignature => 400
  | .unauthorized => 401
  | .missingContract => 400
  | .forbidden => 403
  | .ownershipError => 500
  | .upstreamError _ _ => 500
  | .internalError => 500
  | .streamed _ => 200
  | .streamedAborted _ => 200

/-- Trace of the external calls one request performed, and of everything
written to the caller in streaming mode. -/
structure Trace where
  verifyCalled : Bool := false
  ownerOfCalled : Bool := false
  balanceOfCalled : Bool := false
  fetchCalled : Bool := false
  upstreamReads : Nat := 0
  writeAttempts : Nat := 0
  streamHeadersSet : Bool := false
  sent : List String := []
deriving DecidableEq

/-- The read loop (`while (true) { reader.read() ... write(chunkText) }`):
`writeOk j` says whether the j-th write attempt to the caller succeeds; a
failed write is caught and logged by the `write` helper, so the loop keeps
reading regardless.  Returns the successfully written chunks (in order) and
the number of `reader.read()` calls, including the final `done` read. -/
def streamLoop (writeOk : Nat → Bool) : Nat → List String → List String × Nat
  | _, [] => ([], 1)
  | i, c :: rest =>
    let r := streamLoop writeOk (i + 1) rest
    ((if writeOk i then c :: r.1 else r.1), r.2 + 1)

/-- The streaming-proxy section (lines 111–174): call the upstream fetch; on
a non-success status or missing body, read the text and answer 500 with the
upstream status and body; otherwise set the event-stream headers, forward
every chunk through the error-swallowing `write` helper, then write the
`"\n\n"` termination marker directly and end the response. -/
def streamStage (up : Except Unit Upstream) (writeOk : Nat → Bool) : Resp × Trace :=
  match up with
  | .error _ => (.internalError, { fetchCalled := true })
  | .ok u =>
    match u.ok, u.chunks with
    | true, some l =>
      let r := streamLoop writeOk 0 l
      if writeOk l.length then
        (.streamed (r.1 ++ ["\n\n"]),
          { fetchCalled := true, upstreamReads := r.2, writeAttempts := l.length + 1,
            streamHeadersSet := true, sent := r.1 ++ ["\n\n"] })
      else
        (.streamedAborted r.1,
          { fetchCalled := true, upstreamReads := r.2, writeAttempts := l.length + 1,
            streamHeadersSet := true, sent := r.1 })
    | _, _ => (.upstreamError u.status u.textBody, { fetchCalled := true })

/-- Step 1 of the entitlement check (lines 82–90): when a token id is
present, call `ownerOf` inside its own try/catch; `owns` becomes true only
if the call succeeds and the (truthy) owner equals the address
case-insensitively.  A revert/throw is logged and leaves `owns` false. -/
def ownsAfterToken (chain : Chain) (address : String) : Option Nat → Bool
  | none => false
  | some t =>
    match chain.ownerOf t with
    | .error _ => false
    | .ok owner => decide (owner ≠ "" ∧ jsLower owner = jsLower address)

/-- Merge the entitlement-stage call flags into a streaming-stage result. -/
def withOwnerTr (r : Resp × Trace) (o b : Bool) : Resp × Trace :=
  (r.1, { r.2 with ownerOfCalled := o, balanceOfCalled := b })

/-- The on-chain ownership section plus the streaming stage (lines 72–174):
construct the provider and contract (outer catch → 500 on throw), run the
ordered ownerOf / balanceOf checks, deny with 403 when neither establishes
ownership, and otherwise proxy the upstream stream.  `balanceOf` results are
run through BigNumber `toNumber()`, which throws (caught, swallowed) for
values outside the 2^53 safe-integer range. -/
def entitlementStage (chain : Chain) (writeOk : Nat → Bool)
    (rpcUrl contractAddr address input : String) (tokenId : Option Nat) : Resp × Trace :=
  match chain.contractInit rpcUrl contractAddr with
  | .error _ => (.ownershipError, {})
  | .ok _ =>
    if ownsAfterToken chain address tokenId then
      withOwnerTr (streamStage (chain.upstream input) writeOk) tokenId.isSome false
    else
      match chain.balanceOf address with
      | .error _ => (.forbidden, { ownerOfCalled := tokenId.isSome, balanceOfCalled := true })
      | .ok n =>
        if n < 2 ^ 53 ∧ 0 < n then
          withOwnerTr (streamStage (chain.upstream input) writeOk) tokenId.isSome true
        else
          (.forbidden, { ownerOfCalled := tokenId.isSome, balanceOfCalled := true })

/-- `process.env.RPC_URL || 'https://cloudflare-eth.com'` (line 42). -/
def rpcUrlOf (env : Env) : String :=
  match env.rpc_url with
  | none => "https://cloudflare-eth.com"
  | some s => if s = "" then "https://cloudflare-eth.com" else s

/-- `(context && context.nft_contract) || null` (line 65): absent context,
absent field and the empty string all coerce to null. -/
def contractOf (ctx : Option Ctx) : Option String :=
  match ctx with
  | none => none
  | some c =>
    match c.nft_contract with
    | none => none
    | some s => if s = "" then none else some s

/-- `(context && context.nft_token_id) ?? null` (line 66): absent context or
absent field give null; a present value (a literal `0` included) is kept. -/
def tokenIdOf (ctx : Option Ctx) : Option Nat :=
  ctx.bind Ctx.nft_token_id

/-- Everything after a successful signature verification (lines 60–174):
extract the contract and token id from the context, answer 400 when the
contract is missing, and otherwise run the entitlement stage. -/
def afterVerify (chain : Chain) (writeOk : Nat → Bool)
    (rpcUrl address input : String) (ctx : Option Ctx) : Resp × Trace :=
  match contractOf ctx with
  | none => (.missingContract, {})
  | some ca => entitlementStage chain writeOk rpcUrl ca address input (tokenIdOf ctx)

/-- The whole request handler of `api/chat.js`, as a function of the
environment, the external-world oracles, the per-write success predicate for
the caller connection, and the request.  Returns the caller-visible response
and the trace of external calls. -/
def handler (env : Env) (chain : Chain) (writeOk : Nat → Bool) (req : Request) : Resp × Trace :=
  if req.method = "OPTIONS" then (.optionsOk, {})
  else if req.method ≠ "POST" then (.methodNotAllowed, {})
  else
    let b := req.body.getD {}
    if truthy b.address && truthy b.signature && truthy b.input then
      if truthy env.openai_api_key then
        let rpcUrl := rpcUrlOf env
        if rpcUrl = "" then (.missingRpc, {})
        else
          let address := b.address.getD ""
          let signature := b.signature.getD ""
          let input := b.input.getD ""
          match chain.verifyMessage ("I am requesting an AI response: " ++ input) signature with
          | .error _ => (.invalidSignature, { verifyCalled := true })
          | .ok recovered =>
            if jsLower recovered ≠ jsLower address then
              (.unauthorized, { verifyCalled := true })
            else
              let r := afterVerify chain writeOk rpcUrl address input b.context
              (r.1, { r.2 with verifyCalled := true })
      else (.missingKey, {})
    else (.missingFields, {})

/-- Step 1 of the entitlement algorithm positively matched: a token id was
present, `ownerOf` succeeded, and the (truthy) owner equals the address
case-insensitively. -/
def ownerMatched (chain : Chain) (address : String) (tid : Option Nat) : Prop :=
  ∃ t o, tid = some t ∧ chain.ownerOf t = .ok o ∧ o ≠ "" ∧ jsLower o = jsLower address

/-- The balance lookup succeeds with a strictly positive (full-precision)
value. -/
def balancePos (chain : Chain) (address : String) : Prop :=
  ∃ n, chain.balanceOf address = .ok n ∧ 0 < n

/-- The entitlement decision falls through to the balance check: the
token-id step was skipped, threw, or the owner did not match. -/
def fallsThrough (chain : Chain) (address : String) (tid : Option Nat) : Prop :=
  tid = none ∨ ∃ t, tid = some t ∧
    (chain.ownerOf t = .error () ∨
      ∃ o, chain.ownerOf t = .ok o ∧ ¬ (o ≠ "" ∧ jsLower o = jsLower address))

/-! ### Concrete worlds used for counterexamples and witnesses -/

/-- A healthy upstream: success status with a one-chunk stream. -/
def okUp : Upstream := { ok := true, status := 200, textBody := "", chunks := some ["x"] }

/-- A world where every check passes: recovery yields the claimed address in
upper case (exercising the case-insensitive comparison), `ownerOf` returns
the claimant, and the balance is 1. -/
def okChain : Chain :=
  { verifyMessage := fun _ _ => .ok "0XA"
    contractInit := fun _ _ => .ok ()
    ownerOf := fun _ => .ok "0XA"
    balanceOf := fun _ => .ok 1
    upstream := fun _ => .ok okUp }

/-- A world where `ownerOf` reverts and `balanceOf` reports the smallest
value outside the JS safe-integer range. -/
def bigBalChain : Chain :=
  { verifyMessage := fun _ _ => .ok "0xa"
    contractInit := fun _ _ => .ok ()
    ownerOf := fun _ => .error ()
    balanceOf := fun _ => .ok (2 ^ 53)
    upstream := fun _ => .ok okUp }

/-- A world where both read-node calls fail for transport reasons. -/
def rpcFailChain : Chain :=
  { verifyMessage := fun _ _ => .ok "0xa"
    contractInit := fun _ _ => .ok ()
    ownerOf := fun _ => .error ()
    balanceOf := fun _ => .error ()
    upstream := fun _ => .ok okUp }

/-- A world where `ownerOf` reverts and the wallet's balance is zero. -/
def zeroBalChain : Chain :=
  { verifyMessage := fun _ _ => .ok "0xa"
    contractInit := fun _ _ => .ok ()
    ownerOf := fun _ => .error ()
    balanceOf := fun _ => .ok 0
    upstream := fun _ => .ok okUp }

/-- A world where recovery succeeds but yields a different wallet. -/
def mismatchChain : Chain :=
  { verifyMessage := fun _ _ => .ok "0xb"
    contractInit := fun _ _ => .ok ()
    ownerOf := fun _ => .ok "0xb"
    balanceOf := fun _ => .ok 0
    upstream := fun _ => .ok okUp }

/-- A world where signature recovery throws on a malformed signature. -/
def badSigChain : Chain :=
  { verifyMessage := fun _ _ => .error ()
    contractInit := fun _ _ => .ok ()
    ownerOf := fun _ => .ok "0xa"
    balanceOf := fun _ => .ok 1
    upstream := fun _ => .ok okUp }

/-- An environment with the upstream credential set. -/
def okEnv : Env := { openai_api_key := some "k", rpc_url := none }

/-- A well-formed body claiming wallet `0xa` with token id 7. -/
def okBody : Body :=
  { address := some "0xa", signature := some "s", input := some "hi"
    context := some { nft_contract := some "0xc", nft_token_id := some 7 } }

/-- A well-formed POST request. -/
def okReq : Request := { method := "POST", body := some okBody }

/-- The same request without a token id, so entitlement rests on the
balance lookup. -/
def noTokenBody : Body :=
  { address := some "0xa", signature := some "s", input := some "hi"
    context := some { nft_contract := some "0xc", nft_token_id := none } }

/-- POST request without a token id. -/
def noTokenReq : Request := { method := "POST", body := some noTokenBody }

/-- A POST request with an empty address field. -/
def emptyAddrReq : Request :=
  { method := "POST"
    body := some { address := some "", signature := some "s", input := some "hi" } }

/-- A three-chunk upstream stream, used to exhibit the read loop's behavior
after the caller connection has closed. -/
def threeChunkUp : Upstream :=
  { ok := true, status := 200, textBody := "", chunks := some ["a", "b", "c"] }

/-- A world where provider/contract construction itself throws. -/
def initFailChain : Chain :=
  { verifyMessage := fun _ _ => .ok "0xa"
    contractInit := fun _ _ => .error ()
    ownerOf := fun _ => .ok "0xa"
    balanceOf := fun _ => .ok 1
    upstream := fun _ => .ok okUp }

/-- An upstream that fails with a 503 and an error body before streaming. -/
def badUp : Upstream := { ok := false, status := 503, textBody := "err", chunks := none }

/-! ### Helper lemmas -/

/-- Every branch of the streaming stage records that the upstream fetch was
performed. -/
theorem streamStage_fetch (up : Except Unit Upstream) (writeOk : Nat → Bool) :
    (streamStage up writeOk).2.fetchCalled = true := by
  unfold streamStage
  split
  · rfl
  · split
    · split <;> rfl
    · rfl

/-- `ownsAfterToken` is exactly the positive `ownerOf` match. -/
theorem ownsAfterToken_true_iff (chain : Chain) (a : String) (tid : Option Nat) :
    ownsAfterToken chain a tid = true ↔ ownerMatched chain a tid := by
  cases tid with
  | none => simp [ownsAfterToken, ownerMatched]
  | some t =>
    cases ho : chain.ownerOf t with
    | error u => simp [ownsAfterToken, ownerMatched, ho]
    | ok o =>
      simp only [ownsAfterToken, ho, decide_eq_true_eq]
      constructor
      · intro h
        exact ⟨t, o, rfl, ho, h.1, h.2⟩
      · rintro ⟨t2, o2, ht, ho2, h1, h2⟩
        cases ht
        rw [ho] at ho2
        cases ho2
        exact ⟨h1, h2⟩

/-- Falling through to the balance check is exactly the negative outcome of
the token-id step. -/
theorem fallsThrough_iff (chain : Chain) (a : String) (tid : Option Nat) :
    fallsThrough chain a tid ↔ ownsAfterToken chain a tid = false := by
  cases tid with
  | none => simp [fallsThrough, ownsAfterToken]
  | some t =>
    cases ho : chain.ownerOf t with
    | error u =>
      cases u
      simp [fallsThrough, ownsAfterToken, ho]
    | ok o =>
      simp only [fallsThrough, ownsAfterToken, ho, decide_eq_false_iff_not]
      constructor
      · rintro (h | ⟨t2, ht, h | ⟨o2, ho2, h⟩⟩)
        · cases h
        · cases ht; rw [ho] at h; cases h
        · cases ht; rw [ho] at ho2; cases ho2; exact h
      · intro h
        exact Or.inr ⟨t, rfl, Or.inr ⟨o, ho, h⟩⟩

/-- The outer catch: provider/contract construction threw. -/
theorem entitlement_init_error (chain : Chain) (writeOk : Nat → Bool)
    (rpcUrl ca a i : String) (tid : Option Nat)
    (h : chain.contractInit rpcUrl ca = .error ()) :
    entitlementStage chain writeOk rpcUrl ca a i tid = (.ownershipError, {}) := by
  unfold entitlementStage
  rw [h]

/-- Equation for the granted-by-ownerOf branch. -/
theorem entitlement_owner_grant (chain : Chain) (writeOk : Nat → Bool)
    (rpcUrl ca a i : String) (tid : Option Nat)
    (hinit : chain.contractInit rpcUrl ca = .ok ())
    (howns : ownsAfterToken chain a tid = true) :
    entitlementStage chain writeOk rpcUrl ca a i tid =
      withOwnerTr (streamStage (chain.upstream i) writeOk) tid.isSome false := by
  unfold entitlementStage
  rw [hinit, if_pos howns]

/-- Equation for the fallthrough-with-failing-balance branch. -/
theorem entitlement_bal_error (chain : Chain) (writeOk : Nat → Bool)
    (rpcUrl ca a i : String) (tid : Option Nat)
    (hinit : chain.contractInit rpcUrl ca = .ok ())
    (howns : ownsAfterToken chain a tid = false)
    (hbal : chain.balanceOf a = .error ()) :
    entitlementStage chain writeOk rpcUrl ca a i tid =
      (.forbidden, { ownerOfCalled := tid.isSome, balanceOfCalled := true }) := by
  unfold entitlementStage
  simp [hinit, howns, hbal]

/-- Equation for the fallthrough branch when the balance value does not
clear the `toNumber() > 0` test (zero, or outside the safe-integer range so
that `toNumber` throws and the exception is swallowed). -/
theorem entitlement_bal_reject (chain : Chain) (writeOk : Nat → Bool)
    (rpcUrl ca a i : String) (tid : Option Nat) (n : Nat)
    (hinit : chain.contractInit rpcUrl ca = .ok ())
    (howns : ownsAfterToken chain a tid = false)
    (hbal : chain.balanceOf a = .ok n)
    (hn : ¬ (n < 2 ^ 53 ∧ 0 < n)) :
    entitlementStage chain writeOk rpcUrl ca a i tid =
      (.forbidden, { ownerOfCalled := tid.isSome, balanceOfCalled := true }) := by
  unfold entitlementStage
  simp only [hinit, hbal]
  rw [if_neg (by simp [howns]), if_neg hn]

/-- Equation for the granted-by-balance branch. -/
theorem entitlement_bal_grant (chain : Chain) (writeOk : Nat → Bool)
    (rpcUrl ca a i : String) (tid : Option Nat) (n : Nat)
    (hinit : chain.contractInit rpcUrl ca = .ok ())
    (howns : ownsAfterToken chain a tid = false)
    (hbal : chain.balanceOf a = .ok n)
    (hn : n < 2 ^ 53 ∧ 0 < n) :
    entitlementStage chain writeOk rpcUrl ca a i tid =
      withOwnerTr (streamStage (chain.upstream i) writeOk) tid.isSome true := by
  unfold entitlementStage
  simp only [hinit, hbal]
  rw [if_neg (by simp [howns]), if_pos hn]

/-- If the entitlement stage reached the upstream fetch, one of the two
positive ownership outcomes happened. -/
theorem entitlement_fetch_inv (chain : Chain) (writeOk : Nat → Bool)
    (rpcUrl ca a i : String) (tid : Option Nat)
    (h : (entitlementStage chain writeOk rpcUrl ca a i tid).2.fetchCalled = true) :
    ownerMatched chain a tid ∨ balancePos chain a := by
  unfold entitlementStage at h
  split at h
  · simp [Trace.fetchCalled] at h
  · split at h
    · exact Or.inl ((ownsAfterToken_true_iff chain a tid).mp (by assumption))
    · split at h
      · simp [Trace.fetchCalled] at h
      · split at h
        · next n hbal hn =>
          exact Or.inr ⟨n, hbal, hn.2⟩
        · simp [Trace.fetchCalled] at h

/-- If the post-verification section reached the upstream fetch, one of the
two positive ownership outcomes happened. -/
theorem afterVerify_fetch_inv (chain : Chain) (writeOk : Nat → Bool)
    (rpcUrl a i : String) (ctx : Option Ctx)
    (h : (afterVerify chain writeOk rpcUrl a i ctx).2.fetchCalled = true) :
    ownerMatched chain a (tokenIdOf ctx) ∨ balancePos chain a := by
  unfold afterVerify at h
  split at h
  · simp [Trace.fetchCalled] at h
  · exact entitlement_fetch_inv chain writeOk rpcUrl _ a i _ h

/-- The defaulted RPC URL is never empty, so the misconfiguration branch for
it is dead. -/
theorem rpcUrlOf_ne_empty (env : Env) : ¬ rpcUrlOf env = "" := by
  unfold rpcUrlOf
  split
  · decide
  · split
    · decide
    · assumption

/-- When every write to the caller succeeds, the read loop forwards every
chunk in order and performs one read per chunk plus the final done read. -/
theorem streamLoop_all_ok (writeOk : Nat → Bool) (hw : ∀ j, writeOk j = true) :
    ∀ (l : List String) (i : Nat), streamLoop writeOk i l = (l, l.length + 1) := by
  intro l
  induction l with
  | nil => intro i; rfl
  | cons c rest ih =>
    intro i
    unfold streamLoop
    rw [ih (i + 1)]
    simp [hw i]

/-- If the handler reached the upstream fetch, the request had a body and
one of the two positive ownership outcomes happened for its claimed
address. -/
theorem handler_fetch_inv (env : Env) (chain : Chain) (writeOk : Nat → Bool)
    (req : Request)
    (h : (handler env chain writeOk req).2.fetchCalled = true) :
    ∃ b, req.body = some b ∧
      (ownerMatched chain (b.address.getD "") (tokenIdOf b.context) ∨
        balancePos chain (b.address.getD "")) := by
  obtain ⟨m, ob⟩ := req
  cases ob with
  | none =>
    exfalso
    simp only [handler] at h
    split at h
    · simp [Trace.fetchCalled] at h
    · split at h
      · simp [Trace.fetchCalled] at h
      · simp [truthy, Trace.fetchCalled] at h
  | some b =>
    refine ⟨b, rfl, ?_⟩
    simp only [handler] at h
    split at h
    · simp [Trace.fetchCalled] at h
    · split at h
      · simp [Trace.fetchCalled] at h
      · simp only [Option.getD_some] at h
        split at h
        · split at h
          · split at h
            · simp [Trace.fetchCalled] at h
            · split at h
              · simp [Trace.fetchCalled] at h
              · split at h
                · simp [Trace.fetchCalled] at h
                · simp only [Trace.fetchCalled] at h
                  exact afterVerify_fetch_inv chain writeOk (rpcUrlOf env) _ _ b.context h
          · simp [Trace.fetchCalled] at h
        · simp [Trace.fetchCalled] at h

/-- Projections of the trace-merging helper. -/
theorem withOwnerTr_fetch (r : Resp × Trace) (o b : Bool) :
    (withOwnerTr r o b).2.fetchCalled = r.2.fetchCalled := rfl

/-- Projection of the trace-merging helper onto the balance flag. -/
theorem withOwnerTr_bal (r : Resp × Trace) (o b : Bool) :
    (withOwnerTr r o b).2.balanceOfCalled = b := rfl

/-! ### Claims -/

/-- C1, as stated, is false: a returned balance greater than zero does not
always grant entitlement.  With no token id, `ownerOf` skipped and
`balanceOf` returning 2^53 (a positive balance), BigNumber `toNumber()`
throws, the exception is swallowed, and the request is denied instead of
granted. -/
theorem C1_counterexample :
    bigBalChain.balanceOf "0xa" = .ok (2 ^ 53) ∧ 0 < (2 ^ 53 : Nat) ∧
    (entitlementStage bigBalChain (fun _ => true) "r" "0xc" "0xa" "hi" none).1 = .forbidden ∧
    (entitlementStage bigBalChain (fun _ => true) "r" "0xc" "0xa" "hi" none).2.fetchCalled = false := by
  decide

/-- C1 (amended): for every request that reaches the entitlement stage, the
ordered entitlement algorithm holds: if `nft_token_id` is present and
`ownerOf` returns a (truthy) owner equal to the claimed address
case-insensitively, entitlement is granted immediately (the handler proceeds
to the upstream fetch) and the balance lookup is not performed; if the
token-id step was skipped, threw, or the owner did not match, a `balanceOf`
lookup is performed, and a returned balance greater than zero AND within the
JS safe-integer range (at most 2^53 - 1) grants entitlement. -/
theorem C1_ordered_entitlement (chain : Chain) (writeOk : Nat → Bool)
    (rpcUrl ca a i : String) (tid : Option Nat)
    (hinit : chain.contractInit rpcUrl ca = .ok ()) :
    (∀ t o, tid = some t → chain.ownerOf t = .ok o → o ≠ "" → jsLower o = jsLower a →
      (entitlementStage chain writeOk rpcUrl ca a i tid).2.fetchCalled = true ∧
      (entitlementStage chain writeOk rpcUrl ca a i tid).2.balanceOfCalled = false) ∧
    (fallsThrough chain a tid →
      (entitlementStage chain writeOk rpcUrl ca a i tid).2.balanceOfCalled = true ∧
      ∀ n, chain.balanceOf a = .ok n → 0 < n → n ≤ 2 ^ 53 - 1 →
        (entitlementStage chain writeOk rpcUrl ca a i tid).2.fetchCalled = true) := by
  constructor
  · intro t o ht ho hne hm
    have howns : ownsAfterToken chain a tid = true :=
      (ownsAfterToken_true_iff chain a tid).mpr ⟨t, o, ht, ho, hne, hm⟩
    rw [entitlement_owner_grant chain writeOk rpcUrl ca a i tid hinit howns]
    exact ⟨streamStage_fetch _ _, rfl⟩
  · intro hf
    have howns : ownsAfterToken chain a tid = false := (fallsThrough_iff chain a tid).mp hf
    cases hbal : chain.balanceOf a with
    | error u =>
      cases u
      rw [entitlement_bal_error chain writeOk rpcUrl ca a i tid hinit howns hbal]
      refine ⟨rfl, ?_⟩
      intro n h2 _ _
      exact Except.noConfusion h2
    | ok n0 =>
      by_cases hc : n0 < 2 ^ 53 ∧ 0 < n0
      · rw [entitlement_bal_grant chain writeOk rpcUrl ca a i tid n0 hinit howns hbal hc]
        exact ⟨rfl, fun n h2 hpos hle => streamStage_fetch _ _⟩
      · rw [entitlement_bal_reject chain writeOk rpcUrl ca a i tid n0 hinit howns hbal hc]
        refine ⟨rfl, ?_⟩
        intro n h2 hpos hle
        exfalso
        injection h2 with h3
        subst h3
        exact hc ⟨lt_of_le_of_lt hle (by norm_num), hpos⟩

/-- Witness for C1: in `okChain` a matching `ownerOf` grants immediately
without a balance lookup, and with the token id absent the balance lookup is
performed. -/
theorem C1_witness :
    ((entitlementStage okChain (fun _ => true) "r" "0xc" "0xa" "hi" (some 7)).2.fetchCalled = true ∧
      (entitlementStage okChain (fun _ => true) "r" "0xc" "0xa" "hi" (some 7)).2.balanceOfCalled = false) ∧
    (entitlementStage okChain (fun _ => true) "r" "0xc" "0xa" "hi" none).2.balanceOfCalled = true := by
  refine ⟨(C1_ordered_entitlement okChain (fun _ => true) "r" "0xc" "0xa" "hi" (some 7) rfl).1
    7 "0XA" rfl rfl (by decide) (by decide), ?_⟩
  exact ((C1_ordered_entitlement okChain (fun _ => true) "r" "0xc" "0xa" "hi" none rfl).2
    (Or.inl rfl)).1

/-- C5, as stated, is false: a failing read-node call does not produce a
500.  With both `ownerOf` and `balanceOf` throwing for transport reasons,
the inner catches swallow the errors and the handler denies with 403. -/
theorem C5_counterexample :
    rpcFailChain.ownerOf 7 = .error () ∧ rpcFailChain.balanceOf "0xa" = .error () ∧
    (entitlementStage rpcFailChain (fun _ => true) "r" "0xc" "0xa" "hi" (some 7)).1 = .forbidden ∧
    Resp.statusCode
      (entitlementStage rpcFailChain (fun _ => true) "r" "0xc" "0xa" "hi" (some 7)).1 = 403 := by
  decide

/-- C5 (amended): read-node (RPC) call failures inside the `ownerOf` and
`balanceOf` steps are swallowed by the per-call handlers and lead to a 403
denial; the 500 ownership-verification error occurs exactly when the
on-chain section throws outside those handlers, i.e. when provider/contract
construction fails. -/
theorem C5_rpc_failure (chain : Chain) (writeOk : Nat → Bool)
    (rpcUrl ca a i : String) (tid : Option Nat) :
    (chain.contractInit rpcUrl ca = .ok () →
      (∀ t, tid = some t → chain.ownerOf t = .error ()) →
      chain.balanceOf a = .error () →
      (entitlementStage chain writeOk rpcUrl ca a i tid).1 = .forbidden ∧
      Resp.statusCode .forbidden = 403) ∧
    (chain.contractInit rpcUrl ca = .error () →
      (entitlementStage chain writeOk rpcUrl ca a i tid).1 = .ownershipError ∧
      Resp.statusCode .ownershipError = 500) := by
  constructor
  · intro hinit hown hbal
    have howns : ownsAfterToken chain a tid = false := by
      apply (fallsThrough_iff chain a tid).mp
      cases tid with
      | none => exact Or.inl rfl
      | some t => exact Or.inr ⟨t, rfl, Or.inl (hown t rfl)⟩
    rw [entitlement_bal_error chain writeOk rpcUrl ca a i tid hinit howns hbal]
    exact ⟨rfl, rfl⟩
  · intro hinit
    rw [entitlement_init_error chain writeOk rpcUrl ca a i tid hinit]
    exact ⟨rfl, rfl⟩

/-- Witness for C5: concrete transport failures give 403; a throwing
contract construction gives 500. -/
theorem C5_witness :
    ((entitlementStage rpcFailChain (fun _ => true) "r" "0xc" "0xa" "hi" none).1 = .forbidden ∧
      Resp.statusCode .forbidden = 403) ∧
    ((entitlementStage initFailChain (fun _ => true) "r" "0xc" "0xa" "hi" none).1 = .ownershipError ∧
      Resp.statusCode .ownershipError = 500) :=
  ⟨(C5_rpc_failure rpcFailChain (fun _ => true) "r" "0xc" "0xa" "hi" none).1
      rfl (fun _ h => Option.noConfusion h) rfl,
    (C5_rpc_failure initFailChain (fun _ => true) "r" "0xc" "0xa" "hi" none).2 rfl⟩

/-- C9: when the entitlement decision falls through to the balance check and
`balanceOf` returns a positive integer exceeding 2^53 - 1, the BigNumber to
number conversion throws, the exception is swallowed, and the request is
denied with 403 despite the wallet holding a positive balance. -/
theorem C9_overflow_denied (chain : Chain) (writeOk : Nat → Bool)
    (rpcUrl ca a i : String) (tid : Option Nat) (n : Nat)
    (hinit : chain.contractInit rpcUrl ca = .ok ())
    (hf : fallsThrough chain a tid)
    (hbal : chain.balanceOf a = .ok n)
    (hn : 2 ^ 53 - 1 < n) :
    0 < n ∧
    (entitlementStage chain writeOk rpcUrl ca a i tid).1 = .forbidden ∧
    Resp.statusCode (entitlementStage chain writeOk rpcUrl ca a i tid).1 = 403 := by
  have howns : ownsAfterToken chain a tid = false := (fallsThrough_iff chain a tid).mp hf
  have hrej : ¬ (n < 2 ^ 53 ∧ 0 < n) := by
    rintro ⟨h1, _⟩
    omega
  rw [entitlement_bal_reject chain writeOk rpcUrl ca a i tid n hinit howns hbal hrej]
  exact ⟨by omega, rfl, rfl⟩

/-- Witness for C9: a balance of exactly 2^53 is positive yet denied. -/
theorem C9_witness :
    0 < (2 ^ 53 : Nat) ∧
    (entitlementStage bigBalChain (fun _ => true) "r" "0xc" "0xa" "hi" none).1 = .forbidden ∧
    Resp.statusCode
      (entitlementStage bigBalChain (fun _ => true) "r" "0xc" "0xa" "hi" none).1 = 403 :=
  C9_overflow_denied bigBalChain (fun _ => true) "r" "0xc" "0xa" "hi" none (2 ^ 53)
    rfl (Or.inl rfl) rfl (by norm_num)

/-- C2: fail-closed entitlement.  First part: whenever the handler reaches
the upstream streaming stage, either `ownerOf` positively matched the
claimed address or `balanceOf` returned a value greater than zero — a grant
never happens by default, whatever the environment, oracles or request.
Second part: when the checks ran (contract construction succeeded) and
neither positive outcome holds — including every case where a blockchain
call throws or its result cannot be interpreted — the entitlement stage
denies with 403. -/
theorem C2_fail_closed :
    (∀ env chain writeOk req,
      (handler env chain writeOk req).2.fetchCalled = true →
      ∃ b, req.body = some b ∧
        (ownerMatched chain (b.address.getD "") (tokenIdOf b.context) ∨
          balancePos chain (b.address.getD ""))) ∧
    (∀ chain writeOk rpcUrl ca a i tid,
      ¬ ownerMatched chain a tid → ¬ balancePos chain a →
      chain.contractInit rpcUrl ca = .ok () →
      (entitlementStage chain writeOk rpcUrl ca a i tid).1 = .forbidden ∧
      Resp.statusCode (entitlementStage chain writeOk rpcUrl ca a i tid).1 = 403) := by
  constructor
  · intro env chain writeOk req h
    exact handler_fetch_inv env chain writeOk req h
  · intro chain writeOk rpcUrl ca a i tid hmatch hpos hinit
    have howns : ownsAfterToken chain a tid = false := by
      cases hq : ownsAfterToken chain a tid with
      | false => rfl
      | true => exact absurd ((ownsAfterToken_true_iff chain a tid).mp hq) hmatch
    cases hbal : chain.balanceOf a with
    | error u =>
      cases u
      rw [entitlement_bal_error chain writeOk rpcUrl ca a i tid hinit howns hbal]
      exact ⟨rfl, rfl⟩
    | ok n =>
      have hrej : ¬ (n < 2 ^ 53 ∧ 0 < n) := by
        rintro ⟨_, hp⟩
        exact hpos ⟨n, hbal, hp⟩
      rw [entitlement_bal_reject chain writeOk rpcUrl ca a i tid n hinit howns hbal hrej]
      exact ⟨rfl, rfl⟩

/-- Witness for C2: a granting world reaches the fetch with a positive
outcome, and a zero-balance world is denied with 403. -/
theorem C2_witness :
    (∃ b, (okReq : Request).body = some b ∧
      (ownerMatched okChain (b.address.getD "") (tokenIdOf b.context) ∨
        balancePos okChain (b.address.getD ""))) ∧
    ((entitlementStage zeroBalChain (fun _ => true) "r" "0xc" "0xa" "hi" none).1 = .forbidden ∧
      Resp.statusCode
        (entitlementStage zeroBalChain (fun _ => true) "r" "0xc" "0xa" "hi" none).1 = 403) :=
  ⟨C2_fail_closed.1 okEnv okChain (fun _ => true) okReq (by decide),
    C2_fail_closed.2 zeroBalChain (fun _ => true) "r" "0xc" "0xa" "hi" none
      (by simp [ownerMatched]) (by simp [balancePos, zeroBalChain]) rfl⟩

/-- C6: when the upstream provider answers with a non-success status or no
body before streaming begins, the handler responds 500 carrying the upstream
status and body, no event-stream headers are set, and zero bytes of
streaming content are written to the caller. -/
theorem C6_upstream_error (u : Upstream) (writeOk : Nat → Bool)
    (h : u.ok = false ∨ u.chunks = none) :
    streamStage (.ok u) writeOk = (.upstreamError u.status u.textBody, { fetchCalled := true }) ∧
    Resp.statusCode (.upstreamError u.status u.textBody) = 500 ∧
    ({ fetchCalled := true : Trace }).sent = [] ∧
    ({ fetchCalled := true : Trace }).streamHeadersSet = false := by
  refine ⟨?_, rfl, rfl, rfl⟩
  obtain ⟨uok, ust, utb, uch⟩ := u
  dsimp only at h
  rcases h with h | h
  · subst h
    cases uch <;> rfl
  · subst h
    cases uok <;> rfl

/-- Witness for C6: a 503 with an error body is passed through as a 500 with
that status and body, and nothing is streamed. -/
theorem C6_witness :
    streamStage (.ok badUp) (fun _ => true) = (.upstreamError 503 "err", { fetchCalled := true }) ∧
    Resp.statusCode (.upstreamError 503 "err") = 500 ∧
    ({ fetchCalled := true : Trace }).sent = [] ∧
    ({ fetchCalled := true : Trace }).streamHeadersSet = false :=
  C6_upstream_error badUp (fun _ => true) (Or.inl rfl)

/-- C7: when the upstream stream delivers its chunks and terminates normally
and every write to the caller succeeds, the caller receives exactly those
chunks, verbatim and in order, followed by the blank-line termination marker,
and the connection is then closed cleanly (the `streamed` outcome). -/
theorem C7_stream_forward (u : Upstream) (writeOk : Nat → Bool) (l : List String)
    (hok : u.ok = true) (hch : u.chunks = some l) (hw : ∀ j, writeOk j = true) :
    streamStage (.ok u) writeOk =
      (.streamed (l ++ ["\n\n"]),
        { fetchCalled := true, upstreamReads := l.length + 1, writeAttempts := l.length + 1,
          streamHeadersSet := true, sent := l ++ ["\n\n"] }) ∧
    Resp.statusCode (.streamed (l ++ ["\n\n"])) = 200 := by
  refine ⟨?_, rfl⟩
  obtain ⟨uok, ust, utb, uch⟩ := u
  dsimp only at hok hch
  subst hok
  subst hch
  unfold streamStage
  dsimp only
  rw [streamLoop_all_ok writeOk hw l 0, if_pos (hw l.length)]

/-- Witness for C7: a two-chunk stream is forwarded as those two chunks plus
the termination marker. -/
theorem C7_witness :
    streamStage (.ok { ok := true, status := 200, textBody := "", chunks := some ["a", "b"] })
        (fun _ => true) =
      (.streamed ["a", "b", "\n\n"],
        { fetchCalled := true, upstreamReads := 3, writeAttempts := 3,
          streamHeadersSet := true, sent := ["a", "b", "\n\n"] }) ∧
    Resp.statusCode (.streamed ["a", "b", "\n\n"]) = 200 :=
  C7_stream_forward
    { ok := true, status := 200, textBody := "", chunks := some ["a", "b"] }
    (fun _ => true) ["a", "b"] rfl rfl (fun _ => rfl)

/-- C8: the claim that a failed forward-write aborts further upstream reads
is contradicted by the code.  On a three-chunk stream with the caller
connection closed from the start (every write fails), the read loop still
performs all four upstream reads (three chunks plus the final done read) and
attempts all four writes; it never aborts early. -/
theorem C8_write_failure_keeps_reading :
    streamStage (.ok threeChunkUp) (fun _ => false) =
      (.streamedAborted [],
        { fetchCalled := true, upstreamReads := 4, writeAttempts := 4,
          streamHeadersSet := true, sent := [] }) := by
  decide

/-- C4: for every POST request in which any of address, signature, or input
is missing or empty, the handler returns 400 Missing required fields and
performs no external call at all: no signature recovery, no blockchain RPC
call, no upstream provider call. -/
theorem C4_missing_fields (env : Env) (chain : Chain) (writeOk : Nat → Bool)
    (ob : Option Body)
    (h : truthy (ob.getD {}).address = false ∨ truthy (ob.getD {}).signature = false ∨
      truthy (ob.getD {}).input = false) :
    handler env chain writeOk { method := "POST", body := ob } = (.missingFields, {}) ∧
    Resp.statusCode .missingFields = 400 ∧
    ({} : Trace).verifyCalled = false ∧ ({} : Trace).ownerOfCalled = false ∧
    ({} : Trace).balanceOfCalled = false ∧ ({} : Trace).fetchCalled = false := by
  refine ⟨?_, rfl, rfl, rfl, rfl, rfl⟩
  simp only [handler]
  rcases h with h | h | h <;> simp [h]

/-- Witness for C4: a POST request with an empty address gets a 400 with an
untouched trace. -/
theorem C4_witness :
    handler okEnv okChain (fun _ => true) emptyAddrReq = (.missingFields, {}) ∧
    Resp.statusCode .missingFields = 400 ∧
    ({} : Trace).verifyCalled = false ∧ ({} : Trace).ownerOfCalled = false ∧
    ({} : Trace).balanceOfCalled = false ∧ ({} : Trace).fetchCalled = false :=
  C4_missing_fields okEnv okChain (fun _ => true) emptyAddrReq.body (Or.inl (by decide))

/-- C10: for every POST request whose body is absent (null or undefined),
field extraction falls back to the empty object and the request is answered
with 400 for missing required fields, without any external call. -/
theorem C10_no_body (env : Env) (chain : Chain) (writeOk : Nat → Bool)
    (req : Request) (hm : req.method = "POST") (hb : req.body = none) :
    handler env chain writeOk req = (.missingFields, {}) ∧
    Resp.statusCode .missingFields = 400 ∧
    ({} : Trace).verifyCalled = false ∧ ({} : Trace).fetchCalled = false := by
  refine ⟨?_, rfl, rfl, rfl⟩
  obtain ⟨m, ob⟩ := req
  dsimp only at hm hb
  subst hm
  subst hb
  simp [handler, truthy]

/-- Witness for C10: the bodyless POST request is answered 400. -/
theorem C10_witness :
    handler okEnv okChain (fun _ => true) { method := "POST", body := none } =
      (.missingFields, {}) ∧
    Resp.statusCode .missingFields = 400 ∧
    ({} : Trace).verifyCalled = false ∧ ({} : Trace).fetchCalled = false :=
  C10_no_body okEnv okChain (fun _ => true) { method := "POST", body := none } rfl rfl

/-- C3: for every POST request with non-empty address, signature and input
(and the upstream credential configured), the signature stage behaves as an
ordered three-way branch on recovery over the reconstructed message — the
fixed prefix concatenated with the input.  If recovery succeeds and the
recovered address equals the claimed address case-insensitively, the request
proceeds to the post-verification stages; if recovery succeeds but the
addresses differ, the response is 401; if recovery throws, the response is
400 — a failure path distinct from the mismatch path. -/
theorem C3_signature_stage (env : Env) (chain : Chain) (writeOk : Nat → Bool)
    (b : Body) (a s i : String)
    (ha : b.address = some a) (ha2 : a ≠ "")
    (hs : b.signature = some s) (hs2 : s ≠ "")
    (hi : b.input = some i) (hi2 : i ≠ "")
    (hk : truthy env.openai_api_key = true) :
    (chain.verifyMessage ("I am requesting an AI response: " ++ i) s = .error () →
      handler env chain writeOk { method := "POST", body := some b } =
        (.invalidSignature, { verifyCalled := true }) ∧
      Resp.statusCode .invalidSignature = 400) ∧
    (∀ r, chain.verifyMessage ("I am requesting an AI response: " ++ i) s = .ok r →
      jsLower r ≠ jsLower a →
      handler env chain writeOk { method := "POST", body := some b } =
        (.unauthorized, { verifyCalled := true }) ∧
      Resp.statusCode .unauthorized = 401) ∧
    (∀ r, chain.verifyMessage ("I am requesting an AI response: " ++ i) s = .ok r →
      jsLower r = jsLower a →
      handler env chain writeOk { method := "POST", body := some b } =
        ((afterVerify chain writeOk (rpcUrlOf env) a i b.context).1,
          { (afterVerify chain writeOk (rpcUrlOf env) a i b.context).2 with
            verifyCalled := true })) := by
  have hred : handler env chain writeOk { method := "POST", body := some b } =
      (match chain.verifyMessage ("I am requesting an AI response: " ++ i) s with
        | .error _ => (.invalidSignature, { verifyCalled := true })
        | .ok recovered =>
          if jsLower recovered ≠ jsLower a then (.unauthorized, { verifyCalled := true })
          else
            ((afterVerify chain writeOk (rpcUrlOf env) a i b.context).1,
              { (afterVerify chain writeOk (rpcUrlOf env) a i b.context).2 with
                verifyCalled := true })) := by
    rcases hko : env.openai_api_key with _ | k
    · rw [hko] at hk
      simp [truthy] at hk
    · have hk3 : ¬ k = "" := by
        intro h0
        rw [hko] at hk
        simp [truthy, h0] at hk
      simp [handler, ha, hs, hi, truthy, ha2, hs2, hi2, hko, hk3, rpcUrlOf_ne_empty env]
  refine ⟨?_, ?_, ?_⟩
  · intro hv
    rw [hred, hv]
    exact ⟨rfl, rfl⟩
  · intro r hv hne
    refine ⟨?_, rfl⟩
    rw [hred, hv]
    dsimp only
    rw [if_pos hne]
  · intro r hv heq
    rw [hred, hv]
    dsimp only
    rw [if_neg (by simp [heq])]

/-- Witness for C3: a throwing recovery gives 400 and a recovered address
differing from the claimed one gives 401, on the same request. -/
theorem C3_witness :
    (handler okEnv badSigChain (fun _ => true) { method := "POST", body := some okBody } =
        (.invalidSignature, { verifyCalled := true }) ∧
      Resp.statusCode .invalidSignature = 400) ∧
    (handler okEnv mismatchChain (fun _ => true) { method := "POST", body := some okBody } =
        (.unauthorized, { verifyCalled := true }) ∧
      Resp.statusCode .unauthorized = 401) :=
  ⟨(C3_signature_stage okEnv badSigChain (fun _ => true) okBody "0xa" "s" "hi"
      rfl (by decide) rfl (by decide) rfl (by decide) (by decide)).1 rfl,
    (C3_signature_stage okEnv mismatchChain (fun _ => true) okBody "0xa" "s" "hi"
      rfl (by decide) rfl (by decide) rfl (by decide) (by decide)).2.1 "0xb" rfl (by decide)⟩
